import Mathlib

/-
Verification development for the AI-Scientist paper-retrieval-and-synthesis
pipeline (src/ai_scientist/sample.py, sample2.py, sample3.py,
create_review_paper.py).  The Python functions are shallowly embedded as
executable Lean definitions: HTTP traffic is made explicit by passing the
parsed responses as inputs and returning the requests that were issued, the
filesystem is an explicit association list, and Python exceptions become
values of an error type carried in Except.
-/

/-- Python exceptions that the embedded code can raise.  httpError models
requests.exceptions.HTTPError as raised by Response.raise_for_status,
keyError models KeyError from a missing dictionary key, attributeError
models AttributeError from calling .get on a non-dict value. -/
inductive PyErr where
  | httpError
  | keyError
  | attributeError
  deriving DecidableEq

/-- Characters stripped by Python str.strip() with no arguments: the ASCII
whitespace and separator characters together with the Unicode space
characters recognised by Python. -/
def isPyWhitespace (c : Char) : Bool :=
  let n := c.toNat
  (9 ≤ n && n ≤ 13) || (28 ≤ n && n ≤ 32) || n == 133 || n == 160 || n == 5760 ||
  (8192 ≤ n && n ≤ 8202) || n == 8232 || n == 8233 || n == 8239 || n == 8287 || n == 12288

/-- Strip leading and trailing Python whitespace from a character list. -/
def pyStripList (l : List Char) : List Char :=
  ((l.dropWhile isPyWhitespace).reverse.dropWhile isPyWhitespace).reverse

/-- Python str.strip() with no arguments. -/
def pyStrip (s : String) : String := String.mk (pyStripList s.data)

/-- Python str.join: sep.join(xs). -/
def pyJoin (sep : String) : List String → String
  | [] => ""
  | [x] => x
  | x :: y :: rest => x ++ sep ++ pyJoin sep (y :: rest)

/-- Does the pattern occur at the very beginning of the text? -/
def listStartsWith : List Char → List Char → Bool
  | [], _ => true
  | _ :: _, [] => false
  | p :: ps, c :: cs => p == c && listStartsWith ps cs

/-- Scan positions i, i+1, ... (fuel many) for the first position where the
pattern occurs in the text. -/
def findSubFrom (pat t : List Char) : Nat → Nat → Option Nat
  | _, 0 => none
  | i, fuel + 1 =>
    if listStartsWith pat (t.drop i) then some i
    else findSubFrom pat t (i + 1) fuel

/-- First position at which the pattern occurs in the text, if any. -/
def findSub (pat t : List Char) : Option Nat := findSubFrom pat t 0 (t.length + 1)

/-- Can the regular expression escaped(start) dot-star-lazy escaped(end)
(with DOTALL) begin a match of the text t at position i?  Exactly when the
start marker occurs at i and the end marker occurs somewhere at or after
i + length of the start marker. -/
def startPred (s e t : List Char) (i : Nat) : Bool :=
  listStartsWith s (t.drop i) && (findSub e (t.drop (i + s.length))).isSome

/-- Scan positions i, i+1, ... (fuel many) for the first position where the
compiled marker pattern can begin a match: re.search tries candidate
positions left to right. -/
def findStartFrom (s e t : List Char) : Nat → Nat → Option Nat
  | _, 0 => none
  | i, fuel + 1 =>
    if startPred s e t i then some i
    else findStartFrom s e t (i + 1) fuel

/-- The pattern string occurs in the text string at character position i. -/
def matchesAt (pat text : String) (i : Nat) : Prop :=
  listStartsWith pat.data (text.data.drop i) = true

/-- Embedding of extract_text_between_markers (identical in sample.py,
sample2.py, sample3.py and create_review_paper.py):

    pattern = re.compile(re.escape(start_marker) + r"(.*?)" + re.escape(end_marker), re.DOTALL)
    match = pattern.search(text)
    if match: return match.group(1).strip() else: return None

re.search returns the leftmost match; because the group is lazy, at the
chosen start position the group extends to the first occurrence of the end
marker after the start marker.  The embedding computes exactly that: the
first position p where the escaped start marker matches with an end-marker
occurrence after it, then the first end-marker occurrence k characters
after p + length(start_marker); group(1) is the enclosed segment and the
result is its strip(). -/
def extract_text_between_markers (text start_marker end_marker : String) : Option String :=
  let t := text.data
  let s := start_marker.data
  let e := end_marker.data
  match findStartFrom s e t 0 (t.length + 1) with
  | none => none
  | some p =>
    match findSub e (t.drop (p + s.length)) with
    | none => none
    | some k => some (pyStrip (String.mk ((t.drop (p + s.length)).take k)))

/-- An author record from the search API; the name key may be absent in a
malformed record (author['name'] then raises KeyError). -/
structure Author where
  name : Option String
  deriving DecidableEq

/-- A paper record as returned by the Semantic Scholar search API.  Every
field may be absent; the Python code reads them either with indexing
(raising KeyError when absent) or with .get and a default. -/
structure Paper where
  paperId : Option String
  title : Option String
  authors : Option (List Author)
  year : Option Int
  abstract : Option String
  venue : Option String
  citationCount : Option Int
  deriving DecidableEq

/-- The parsed JSON body of one search response together with its HTTP
status code.  total and data may be absent from the JSON object. -/
structure SearchRsp where
  status : Nat
  total : Option Int
  data : Option (List Paper)
  deriving DecidableEq

/-- One GET request against the search endpoint, as issued by
search_for_papers: the url is fixed, query/limit/offset/fields are the
params dictionary (offset is only sent by the sample3.py variant). -/
structure SearchRequest where
  url : String
  query : String
  limit : Nat
  offset : Option Nat
  fields : String
  deriving DecidableEq

/-- The fixed search endpoint used by every variant. -/
def searchEndpoint : String := "https://api.semanticscholar.org/graph/v1/paper/search"

/-- The fields parameter sent by sample.py, sample2.py and create_review_paper.py. -/
def searchFields : String := "title,authors,venue,year,abstract,citationStyles,citationCount"

/-- The fields parameter sent by sample3.py (additionally requests paperId). -/
def searchFieldsS3 : String := "paperId,title,authors,venue,year,abstract,citationStyles,citationCount"

/-- The request built by search_for_papers in create_review_paper.py. -/
def search_request_crp (query : String) (limit : Nat) : SearchRequest :=
  ⟨searchEndpoint, query, limit, none, searchFields⟩

/-- The request built by search_for_papers in sample.py. -/
def search_request_sample (query : String) (limit : Nat) : SearchRequest :=
  ⟨searchEndpoint, query, limit, none, searchFields⟩

/-- The request built by search_for_papers in sample2.py. -/
def search_request_sample2 (query : String) (limit : Nat) : SearchRequest :=
  ⟨searchEndpoint, query, limit, none, searchFields⟩

/-- The request built by search_for_papers in sample3.py. -/
def search_request_sample3 (query : String) (limit offset : Nat) : SearchRequest :=
  ⟨searchEndpoint, query, limit, some offset, searchFieldsS3⟩

/-- One attempt of search_for_papers in create_review_paper.py, given the
response of its GET: raise_for_status raises HTTPError on a 4xx/5xx status;
then total = results.get("total", 0); if not total: return None; papers =
results["data"] raises KeyError when the data key is absent.  The prints
and the fixed time.sleep(1.0) have no effect on the value and are not
modelled. -/
def search_attempt_crp (rsp : SearchRsp) : Except PyErr (Option (List Paper)) :=
  if 400 ≤ rsp.status then .error .httpError
  else if rsp.total.getD 0 = 0 then .ok none
  else match rsp.data with
    | some papers => .ok (some papers)
    | none => .error .keyError

/-- One attempt of search_for_papers in sample.py: identical to the
create_review_paper.py body except that total = results["total"] raises
KeyError when the total key is absent. -/
def search_attempt_sample (rsp : SearchRsp) : Except PyErr (Option (List Paper)) :=
  if 400 ≤ rsp.status then .error .httpError
  else match rsp.total with
    | none => .error .keyError
    | some t =>
      if t = 0 then .ok none
      else match rsp.data with
        | some papers => .ok (some papers)
        | none => .error .keyError

/-- One attempt of search_for_papers in sample2.py (textually the same body
as sample.py). -/
def search_attempt_sample2 (rsp : SearchRsp) : Except PyErr (Option (List Paper)) :=
  if 400 ≤ rsp.status then .error .httpError
  else match rsp.total with
    | none => .error .keyError
    | some t =>
      if t = 0 then .ok none
      else match rsp.data with
        | some papers => .ok (some papers)
        | none => .error .keyError

/-- One attempt of search_for_papers in sample3.py (same result logic as
sample.py; the offset only changes the request parameters). -/
def search_attempt_sample3 (rsp : SearchRsp) : Except PyErr (Option (List Paper)) :=
  if 400 ≤ rsp.status then .error .httpError
  else match rsp.total with
    | none => .error .keyError
    | some t =>
      if t = 0 then .ok none
      else match rsp.data with
        | some papers => .ok (some papers)
        | none => .error .keyError

deriving instance DecidableEq for Except

/-- Outcome of a decorated search_for_papers call: the final result (or the
exception that escaped), the GET requests that were issued, and how many
times the on_backoff notification fired. -/
structure SearchRun where
  result : Except PyErr (Option (List Paper))
  requests : List SearchRequest
  backoffs : Nat
  deriving DecidableEq

/-- Modelled from the spec: the backoff.on_exception(backoff.expo,
requests.exceptions.HTTPError, on_backoff=on_backoff) decorator applied to
search_for_papers; the backoff library itself is not part of the repository
sources.  Per the spec, on HTTP-level failure the call is retried with
exponential backoff with no maximum attempt count, and the on_backoff
notification runs once before each retry; any other outcome (success or a
different exception) ends the call.  Each attempt consumes the next
response from the given list and issues one GET; if every listed response
yields HTTPError the call is still retrying, which the model reports as
none.  The wait durations influence timing only, not the value, and are
not modelled. -/
def runBackoffSearch (attempt : SearchRsp → Except PyErr (Option (List Paper)))
    (req : SearchRequest) : List SearchRsp → Nat → Option SearchRun
  | [], _ => none
  | rsp :: rest, n =>
    match attempt rsp with
    | .error .httpError => runBackoffSearch attempt req rest (n + 1)
    | out => some ⟨out, List.replicate (n + 1) req, n⟩

/-- search_for_papers of create_review_paper.py under its backoff decorator:
an empty query returns None before any request is made (if not query:
return None); otherwise attempts run against successive responses. -/
def search_for_papers_crp (query : String) (limit : Nat) (rsps : List SearchRsp) :
    Option SearchRun :=
  if query = "" then some ⟨.ok none, [], 0⟩
  else runBackoffSearch search_attempt_crp (search_request_crp query limit) rsps 0

/-- search_for_papers of sample.py under its backoff decorator. -/
def search_for_papers_sample (query : String) (limit : Nat) (rsps : List SearchRsp) :
    Option SearchRun :=
  if query = "" then some ⟨.ok none, [], 0⟩
  else runBackoffSearch search_attempt_sample (search_request_sample query limit) rsps 0

/-- search_for_papers of sample2.py under its backoff decorator. -/
def search_for_papers_sample2 (query : String) (limit : Nat) (rsps : List SearchRsp) :
    Option SearchRun :=
  if query = "" then some ⟨.ok none, [], 0⟩
  else runBackoffSearch search_attempt_sample2 (search_request_sample2 query limit) rsps 0

/-- search_for_papers of sample3.py under its backoff decorator (takes the
extra offset parameter). -/
def search_for_papers_sample3 (query : String) (limit offset : Nat) (rsps : List SearchRsp) :
    Option SearchRun :=
  if query = "" then some ⟨.ok none, [], 0⟩
  else runBackoffSearch search_attempt_sample3 (search_request_sample3 query limit offset) rsps 0

/-- A BibTeX endpoint response: status code and raw body text. -/
structure BibRsp where
  status : Nat
  text : String
  deriving DecidableEq

/-- The per-paper BibTeX URL built by get_bibtex_entry in sample3.py. -/
def bibtex_request_url (paperId : String) : String :=
  "https://api.semanticscholar.org/" ++ paperId ++ "?format=bibtex"

/-- Embedding of get_bibtex_entry in sample3.py: if not paperId: return None
(None and the empty string are falsy); otherwise one GET (the function has
no backoff decorator, so there is no retry), raise_for_status propagates
HTTPError on 4xx/5xx, and on success the stripped body text is returned.
The second component lists the URLs of the GET requests performed. -/
def get_bibtex_entry (paperId : Option String) (rsp : BibRsp) :
    Except PyErr (Option String) × List String :=
  match paperId with
  | none => (.ok none, [])
  | some pid =>
    if pid = "" then (.ok none, [])
    else if 400 ≤ rsp.status then (.error .httpError, [bibtex_request_url pid])
    else (.ok (some (pyStrip rsp.text)), [bibtex_request_url pid])

/-- The list comprehension [author['name'] for author in ...]: raises
KeyError as soon as an author record has no name key. -/
def authorNames : List Author → Except PyErr (List String)
  | [] => .ok []
  | a :: rest =>
    match a.name with
    | none => .error .keyError
    | some n =>
      match authorNames rest with
      | .error e => .error e
      | .ok ns => .ok (n :: ns)

/-- The year text of a paper in the create_review_paper.py digest:
paper.get('year', '年不明') rendered through the f-string. -/
def year_text_crp (p : Paper) : String :=
  match p.year with
  | some y => toString y
  | none => "年不明"

/-- One digest entry of the papers_text loop in
summarize_papers_for_chapter of create_review_paper.py (lines 113-119):
every paper field is read with .get and a default, so a missing title,
year, authors or abstract renders a placeholder; only a missing name key
inside an author record can raise. -/
def paper_digest_crp (i : Nat) (p : Paper) : Except PyErr String :=
  match authorNames (p.authors.getD []) with
  | .error e => .error e
  | .ok names =>
    .ok (toString (i + 1) ++ ". " ++ p.title.getD "タイトルなし" ++ "（" ++
         year_text_crp p ++ "）\n" ++
         "著者: " ++ pyJoin ", " names ++ "\n" ++
         "要旨: " ++ p.abstract.getD "要旨なし" ++ "\n\n")

/-- One digest entry of the papers_text loop in
summarize_papers_for_chapter of sample2.py (lines 71-76): the fields are
read with indexing, so a missing authors, title, year or abstract key
raises KeyError. -/
def paper_digest_sample2 (i : Nat) (p : Paper) : Except PyErr String :=
  match p.authors with
  | none => .error .keyError
  | some al =>
    match authorNames al with
    | .error e => .error e
    | .ok names =>
      match p.title, p.year, p.abstract with
      | some ti, some y, some ab =>
        .ok (toString (i + 1) ++ ". " ++ ti ++ " by " ++ pyJoin ", " names ++
             " (" ++ toString y ++ ")\n" ++
             "Abstract: " ++ ab ++ "\n\n")
      | _, _, _ => .error .keyError

/-- The papers_text accumulation loop, indexed from i as by enumerate. -/
def papers_text_from (digest : Nat → Paper → Except PyErr String) :
    Nat → List Paper → Except PyErr String
  | _, [] => .ok ""
  | i, p :: rest =>
    match digest i p with
    | .error e => .error e
    | .ok line =>
      match papers_text_from digest (i + 1) rest with
      | .error e => .error e
      | .ok t => .ok (line ++ t)

/-- The full papers_text of create_review_paper.py's chapter summarizer. -/
def papers_text_crp (papers : List Paper) : Except PyErr String :=
  papers_text_from paper_digest_crp 0 papers

/-- The full papers_text of sample2.py's chapter summarizer. -/
def papers_text_sample2 (papers : List Paper) : Except PyErr String :=
  papers_text_from paper_digest_sample2 0 papers

/-- Embedding of generate_latex_review_paper of create_review_paper.py
(lines 177-187), from the point where the LLM response is in hand: the
LaTeX code is extracted between the literal markers; when extraction fails
the function prints a diagnostic and returns with no write, leaving the
filesystem unchanged.  The filesystem is an association list of file name
and contents; the second component is the extracted code (none models the
failure-signal early return). -/
def generate_latex_review_paper (response output_file : String)
    (fs : List (String × String)) : List (String × String) × Option String :=
  match extract_text_between_markers response "<BEGIN LATEX>" "<END LATEX>" with
  | none => (fs, none)
  | some latex_code => ((output_file, latex_code) :: fs, some latex_code)

/-- Embedding of generate_review_paper_from_papers of sample3.py (lines
142-152), from the point where the LLM response is in hand: identical
marker extraction and write-or-abort behaviour (the prompt construction
from papers_text and the BibTeX entries does not affect this step). -/
def generate_review_paper_from_papers (response output_file : String)
    (fs : List (String × String)) : List (String × String) × Option String :=
  match extract_text_between_markers response "<BEGIN LATEX>" "<END LATEX>" with
  | none => (fs, none)
  | some latex_code => ((output_file, latex_code) :: fs, some latex_code)

/-- The offsets traversed by collect_papers_on_theme: range(0, 50, 10). -/
def collect_offsets : List Nat := [0, 10, 20, 30, 40]

/-- One step of the inner loop of collect_papers_on_theme: paper_id =
paper.get('paperId'); if paper_id not in seen_paper_ids, append the paper
and record the id.  The accumulator carries the collected papers and the
seen-id set (as a list used only through membership). -/
def collectStep (acc : List Paper × List (Option String)) (paper : Paper) :
    List Paper × List (Option String) :=
  if paper.paperId ∈ acc.2 then acc
  else (acc.1 ++ [paper], acc.2 ++ [paper.paperId])

/-- The offset loop of collect_papers_on_theme in sample3.py (lines 19-33):
for each offset the search oracle yields the outcome of
search_for_papers(theme, result_limit=10, offset=offset) (None or the data
list); if not papers (None or an empty list) the loop breaks, otherwise
the batch is folded through the dedup step. -/
def collectGo (search : Nat → Option (List Paper)) :
    List Nat → List Paper → List (Option String) → List Paper
  | [], acc, _ => acc
  | off :: rest, acc, seen =>
    match search off with
    | none => acc
    | some [] => acc
    | some (p :: ps) =>
      let s := (p :: ps).foldl collectStep (acc, seen)
      collectGo search rest s.1 s.2

/-- Embedding of collect_papers_on_theme of sample3.py. -/
def collect_papers_on_theme (search : Nat → Option (List Paper)) : List Paper :=
  collectGo search collect_offsets [] []

/-- Modelled from the spec: first-seen deduplication by paper id, the
reference behaviour the spec describes as collected into a
deduplicated-by-id set within one run.  Used to state the refinement
theorem about collect_papers_on_theme. -/
def dedupById : List Paper → List (Option String) → List Paper
  | [], _ => []
  | p :: ps, seen =>
    if p.paperId ∈ seen then dedupById ps seen
    else p :: dedupById ps (p.paperId :: seen)

/-- The concatenation of the batches that the offset loop of
collect_papers_on_theme actually traverses (it stops at the first outcome
that is None or empty). -/
def traversedBatches (search : Nat → Option (List Paper)) : List Nat → List Paper
  | [] => []
  | off :: rest =>
    match search off with
    | none => []
    | some [] => []
    | some (p :: ps) => (p :: ps) ++ traversedBatches search rest

/-- JSON values as produced by Python json.loads.  Numbers are kept as
mantissa times ten to the exp10 power; NaN and the infinities (accepted by
Python json.loads) are folded into num 0 0, which is sound here because no
embedded operation inspects a numeric value. -/
inductive Json where
  | null
  | bool (b : Bool)
  | num (mantissa : Int) (exp10 : Int)
  | str (s : String)
  | arr (elems : List Json)
  | obj (fields : List (String × Json))

/-- The opening curly bracket character. -/
def lbraceChar : Char := Char.ofNat 123

/-- The closing curly bracket character. -/
def rbraceChar : Char := Char.ofNat 125

/-- The whitespace characters the Python json scanner skips between tokens. -/
def jsonWs (c : Char) : Bool := c == ' ' || c == '\t' || c == '\n' || c == '\r'

/-- Drop leading JSON whitespace. -/
def skipWs : List Char → List Char
  | [] => []
  | c :: rest => if jsonWs c then skipWs rest else c :: rest

/-- Decimal digit value of a character, if it is a digit. -/
def digitVal (c : Char) : Option Nat :=
  if '0' ≤ c ∧ c ≤ '9' then some (c.toNat - 48) else none

/-- Hexadecimal digit value of a character, if it is a hex digit. -/
def hexVal (c : Char) : Option Nat :=
  if '0' ≤ c ∧ c ≤ '9' then some (c.toNat - 48)
  else if 'a' ≤ c ∧ c ≤ 'f' then some (c.toNat - 87)
  else if 'A' ≤ c ∧ c ≤ 'F' then some (c.toNat - 55)
  else none

/-- Consume a maximal run of decimal digits, returning the accumulated
value, the number of digits consumed and the rest. -/
def parseDigitsAux : List Char → Nat → Nat → Nat × Nat × List Char
  | [], v, n => (v, n, [])
  | c :: rest, v, n =>
    match digitVal c with
    | some d => parseDigitsAux rest (v * 10 + d) (n + 1)
    | none => (v, n, c :: rest)

/-- Build a parsed JSON number from sign, integer part, fraction digits and
decimal exponent. -/
def mkNum (neg : Bool) (iv fv fc : Nat) (es : Int) : Json :=
  let mant : Int := (iv * 10 ^ fc + fv : Nat)
  Json.num (if neg then -mant else mant) (es - fc)

/-- Parse the optional exponent part of a JSON number. -/
def parseExpPart (neg : Bool) (iv fv fc : Nat) (cs : List Char) :
    Except String (Json × List Char) :=
  match cs with
  | [] => .ok (mkNum neg iv fv fc 0, [])
  | c :: rest =>
    if c == 'e' || c == 'E' then
      match rest with
      | [] => .error "exponent"
      | c2 :: rest2 =>
        let sr : Bool × List Char :=
          if c2 == '+' then (false, rest2)
          else if c2 == '-' then (true, rest2)
          else (false, rest)
        let t := parseDigitsAux sr.2 0 0
        if t.2.1 = 0 then .error "exponent"
        else .ok (mkNum neg iv fv fc (if sr.1 then -(t.1 : Int) else (t.1 : Int)), t.2.2)
    else .ok (mkNum neg iv fv fc 0, cs)

/-- Parse a JSON number following the strict grammar Python json.loads
uses: optional minus, an integer part with no leading zeros, an optional
fraction with at least one digit, an optional exponent with at least one
digit. -/
def parseNumber (cs : List Char) : Except String (Json × List Char) :=
  match cs with
  | [] => .error "number"
  | c0 :: rest0 =>
    let cs1 := if c0 == '-' then rest0 else cs
    match cs1 with
    | [] => .error "number"
    | d0 :: _ =>
      match digitVal d0 with
      | none => .error "number"
      | some _ =>
        let t := parseDigitsAux cs1 0 0
        if d0 == '0' && 1 < t.2.1 then .error "leading zero"
        else
          match t.2.2 with
          | [] => .ok (mkNum (c0 == '-') t.1 0 0 0, [])
          | c :: cs2tail =>
            if c == '.' then
              let t2 := parseDigitsAux cs2tail 0 0
              if t2.2.1 = 0 then .error "fraction"
              else parseExpPart (c0 == '-') t.1 t2.1 t2.2.1 t2.2.2
            else parseExpPart (c0 == '-') t.1 0 0 (c :: cs2tail)

/-- The single-character string escapes of JSON. -/
def escChar (e : Char) : Option Char :=
  if e == '"' then some '"'
  else if e == '\\' then some '\\'
  else if e == '/' then some '/'
  else if e == 'b' then some (Char.ofNat 8)
  else if e == 'f' then some (Char.ofNat 12)
  else if e == 'n' then some '\n'
  else if e == 'r' then some '\r'
  else if e == 't' then some '\t'
  else none

/-- Parse the body of a JSON string after the opening quote, in strict
mode as Python json.loads does by default: raw control characters below
0x20 are rejected, the standard escapes and 4-hex-digit unicode escapes
are decoded.  Each unicode escape is mapped to one character; the pairing
of surrogate escapes into a single character is not modelled (it affects
only the decoded text of such strings, which no claim inspects). -/
def parseJString : Nat → List Char → Except String (List Char × List Char)
  | 0, _ => .error "fuel"
  | fuel + 1, cs =>
    match cs with
    | [] => .error "unterminated string"
    | c :: rest =>
      if c == '"' then .ok ([], rest)
      else if c == '\\' then
        match rest with
        | [] => .error "escape"
        | e :: r2 =>
          if e == 'u' then
            match r2 with
            | h1 :: h2 :: h3 :: h4 :: r3 =>
              match hexVal h1, hexVal h2, hexVal h3, hexVal h4 with
              | some a, some b, some c4, some d =>
                match parseJString fuel r3 with
                | .error err => .error err
                | .ok (s, rr) => .ok (Char.ofNat (((a * 16 + b) * 16 + c4) * 16 + d) :: s, rr)
              | _, _, _, _ => .error "unicode escape"
            | _ => .error "unicode escape"
          else
            match escChar e with
            | none => .error "escape"
            | some ch =>
              match parseJString fuel r2 with
              | .error err => .error err
              | .ok (s, rr) => .ok (ch :: s, rr)
      else if c.toNat < 32 then .error "control character"
      else
        match parseJString fuel rest with
        | .error err => .error err
        | .ok (s, rr) => .ok (c :: s, rr)

/-- If the literal is a prefix of the input, drop it. -/
def dropLit (lit cs : List Char) : Option (List Char) :=
  if listStartsWith lit cs then some (cs.drop lit.length) else none

/-- Parser modes: a value, the remaining elements of an array after at
least one element, or the remaining members of an object after the opening
bracket with at least one member. -/
inductive PMode where
  | value
  | elems (acc : List Json)
  | members (acc : List (String × Json))

/-- Recursive-descent JSON parser following the grammar Python json.loads
accepts (including its NaN and Infinity extensions).  The fuel argument
only ensures termination; json_loads supplies more than any input can
consume. -/
def parseStep : Nat → PMode → List Char → Except String (Json × List Char)
  | 0, _, _ => .error "fuel"
  | fuel + 1, PMode.value, cs =>
    match cs with
    | [] => .error "empty value"
    | c :: rest =>
      if c == lbraceChar then
        match skipWs rest with
        | [] => .error "object"
        | c2 :: r2 =>
          if c2 == rbraceChar then .ok (.obj [], r2)
          else parseStep fuel (PMode.members []) (c2 :: r2)
      else if c == '[' then
        match skipWs rest with
        | [] => .error "array"
        | c2 :: r2 =>
          if c2 == ']' then .ok (.arr [], r2)
          else parseStep fuel (PMode.elems []) (c2 :: r2)
      else if c == '"' then
        match parseJString (rest.length + 1) rest with
        | .error err => .error err
        | .ok (s, rr) => .ok (.str (String.mk s), rr)
      else if c == 't' then
        match dropLit ['r', 'u', 'e'] rest with
        | some r => .ok (.bool true, r)
        | none => .error "literal"
      else if c == 'f' then
        match dropLit ['a', 'l', 's', 'e'] rest with
        | some r => .ok (.bool false, r)
        | none => .error "literal"
      else if c == 'n' then
        match dropLit ['u', 'l', 'l'] rest with
        | some r => .ok (.null, r)
        | none => .error "literal"
      else if c == 'N' then
        match dropLit ['a', 'N'] rest with
        | some r => .ok (.num 0 0, r)
        | none => .error "literal"
      else if c == 'I' then
        match dropLit ['n', 'f', 'i', 'n', 'i', 't', 'y'] rest with
        | some r => .ok (.num 0 0, r)
        | none => .error "literal"
      else if c == '-' then
        match rest with
        | 'I' :: r2 =>
          match dropLit ['n', 'f', 'i', 'n', 'i', 't', 'y'] r2 with
          | some r => .ok (.num 0 0, r)
          | none => .error "literal"
        | _ => parseNumber cs
      else if (digitVal c).isSome then parseNumber cs
      else .error "value"
  | fuel + 1, PMode.elems acc, cs =>
    match parseStep fuel PMode.value cs with
    | .error err => .error err
    | .ok (v, r) =>
      match skipWs r with
      | [] => .error "array end"
      | c :: r2 =>
        if c == ',' then parseStep fuel (PMode.elems (acc ++ [v])) (skipWs r2)
        else if c == ']' then .ok (.arr (acc ++ [v]), r2)
        else .error "array separator"
  | fuel + 1, PMode.members acc, cs =>
    match cs with
    | [] => .error "object key"
    | c :: rest =>
      if c == '"' then
        match parseJString (rest.length + 1) rest with
        | .error err => .error err
        | .ok (key, r1) =>
          match skipWs r1 with
          | [] => .error "colon"
          | c2 :: r2 =>
            if c2 == ':' then
              match parseStep fuel PMode.value (skipWs r2) with
              | .error err => .error err
              | .ok (v, r3) =>
                match skipWs r3 with
                | [] => .error "object end"
                | c3 :: r5 =>
                  if c3 == ',' then
                    parseStep fuel (PMode.members (acc ++ [(String.mk key, v)])) (skipWs r5)
                  else if c3 == rbraceChar then
                    .ok (.obj (acc ++ [(String.mk key, v)]), r5)
                  else .error "object separator"
            else .error "colon"
      else .error "object key"

/-- Model of Python json.loads on a string: skip surrounding whitespace,
parse one value, require the input to be fully consumed. -/
def json_loads (s : String) : Except String Json :=
  match parseStep (2 * s.data.length + 4) PMode.value (skipWs s.data) with
  | .error err => .error err
  | .ok (v, rest) => if skipWs rest = [] then .ok v else .error "extra data"

/-- Python dict.get(key, default) on the fields of a parsed JSON object;
with duplicate keys the later occurrence wins, as when Python builds the
dict. -/
def dictGet (fields : List (String × Json)) (key : String) (default : Json) : Json :=
  match fields.reverse.find? (fun kv => kv.1 == key) with
  | some kv => kv.2
  | none => default

/-- Embedding of generate_chapter_structure (create_review_paper.py lines
28-69 and sample2.py lines 19-60, identical apart from prompt wording),
from the point where the LLM response text is in hand: extract the text
between the OUTPUT markers, returning an empty chapter list when the
markers are absent; feed it to json.loads, returning an empty chapter list
when that raises JSONDecodeError; then chapters =
json.loads(json_text).get("chapters", []).  The .get call only exists on a
dict, so a response whose extracted text is valid JSON of any other shape
raises AttributeError, which no except clause catches.  The result value
is the raw chapters value, which Python does not check to be a list. -/
def generate_chapter_structure (response : String) : Except PyErr Json :=
  match extract_text_between_markers response "<BEGIN OUTPUT>" "<END OUTPUT>" with
  | none => .ok (.arr [])
  | some json_text =>
    match json_loads json_text with
    | .error _ => .ok (.arr [])
    | .ok (.obj fields) => .ok (dictGet fields "chapters" (.arr []))
    | .ok _ => .error .attributeError

/-- A well-formed sample paper for concrete runs. -/
def paperA : Paper :=
  ⟨some "idA", some "TitleA", some [⟨some "Alice"⟩], some 2020, some "absA", none, none⟩

/-- A second well-formed sample paper for concrete runs. -/
def paperB : Paper :=
  ⟨some "idB", some "TitleB", some [⟨some "Bob"⟩], some 2021, some "absB", none, none⟩

/-- A paper record whose abstract key is absent. -/
def paper_no_abstract : Paper :=
  ⟨none, some "T", some [⟨some "A"⟩], some 2020, none, none, none⟩

/-- A paper record whose authors key is absent. -/
def paper_no_authors : Paper :=
  ⟨none, some "T", none, some 2020, some "abs", none, none⟩

/-- Retrying skips over any run of responses whose attempt raises
HTTPError, firing one backoff notification per skipped response. -/
theorem runBackoffSearch_replicate_err
    (attempt : SearchRsp → Except PyErr (Option (List Paper))) (req : SearchRequest)
    (e : SearchRsp) (he : attempt e = .error .httpError) (n : Nat) :
    ∀ (k : Nat) (rsps : List SearchRsp),
      runBackoffSearch attempt req (List.replicate n e ++ rsps) k =
        runBackoffSearch attempt req rsps (k + n) := by
  induction n with
  | zero => intro k rsps; simp
  | succ n ih =>
    intro k rsps
    rw [List.replicate_succ, List.cons_append]
    have step : runBackoffSearch attempt req (e :: (List.replicate n e ++ rsps)) k =
        runBackoffSearch attempt req (List.replicate n e ++ rsps) (k + 1) := by
      rw [runBackoffSearch, he]
    rw [step, ih (k + 1) rsps]
    have hk : k + 1 + n = k + (n + 1) := by omega
    rw [hk]

/-- A single response whose attempt does not raise HTTPError ends the
retried call with that attempt's outcome and no further request. -/
theorem runBackoffSearch_single
    (attempt : SearchRsp → Except PyErr (Option (List Paper))) (req : SearchRequest)
    (rsp : SearchRsp) (h : attempt rsp ≠ .error .httpError) (k : Nat) (rest : List SearchRsp) :
    runBackoffSearch attempt req (rsp :: rest) k =
      some ⟨attempt rsp, List.replicate (k + 1) req, k⟩ := by
  rw [runBackoffSearch]
  rcases h2 : attempt rsp with e | v
  · cases e with
    | httpError => exact absurd h2 h
    | keyError => rfl
    | attributeError => rfl
  · rfl

/-- With a status below 400 the create_review_paper.py attempt never
raises HTTPError. -/
theorem search_attempt_crp_not_http (rsp : SearchRsp) (hs : rsp.status < 400) :
    search_attempt_crp rsp ≠ .error .httpError := by
  rw [search_attempt_crp, if_neg (by omega)]
  split
  · simp
  · split <;> simp

/-- With a status below 400 the sample.py attempt never raises HTTPError. -/
theorem search_attempt_sample_not_http (rsp : SearchRsp) (hs : rsp.status < 400) :
    search_attempt_sample rsp ≠ .error .httpError := by
  rw [search_attempt_sample, if_neg (by omega)]
  rcases rsp.total with _ | t
  · simp
  · simp only []
    split
    · simp
    · split <;> simp

/-- C3: for every run of search_for_papers whose GET raises HTTPError on
some attempts, the call is retried with no maximum attempt count and one
on_backoff notification before each retry: against an endpoint answering
n times with HTTP 500 and then with 200, search_for_papers (sample.py and
sample3.py variants) returns the 200 payload after exactly n backoff
notifications, having issued n + 1 requests.  The claim's scenario is the
instance n = 2. -/
theorem C3_retry_unbounded_with_backoff (n : Nat) (q : String) (limit offset : Nat)
    (papers : List Paper) (hq : q ≠ "") :
    search_for_papers_sample q limit
        (List.replicate n ⟨500, none, none⟩ ++ [⟨200, some 1, some papers⟩]) =
      some ⟨.ok (some papers), List.replicate (n + 1) (search_request_sample q limit), n⟩ ∧
    search_for_papers_sample3 q limit offset
        (List.replicate n ⟨500, none, none⟩ ++ [⟨200, some 1, some papers⟩]) =
      some ⟨.ok (some papers), List.replicate (n + 1) (search_request_sample3 q limit offset), n⟩ := by
  constructor
  · rw [search_for_papers_sample, if_neg hq,
      runBackoffSearch_replicate_err _ _ _ rfl n 0 [⟨200, some 1, some papers⟩]]
    rw [runBackoffSearch_single _ _ _ (by intro hcon; simp [search_attempt_sample] at hcon) _ _]
    simp [search_attempt_sample]
  · rw [search_for_papers_sample3, if_neg hq,
      runBackoffSearch_replicate_err _ _ _ rfl n 0 [⟨200, some 1, some papers⟩]]
    rw [runBackoffSearch_single _ _ _ (by intro hcon; simp [search_attempt_sample3] at hcon) _ _]
    simp [search_attempt_sample3]

/-- Witness for C3 at the claim's concrete scenario: two 500 responses
followed by a 200 response give the 200 payload after exactly two backoff
notifications. -/
theorem C3_retry_unbounded_with_backoff_witness :
    search_for_papers_sample "graph neural networks" 10
        (List.replicate 2 ⟨500, none, none⟩ ++ [⟨200, some 1, some [paperA]⟩]) =
      some ⟨.ok (some [paperA]),
            List.replicate 3 (search_request_sample "graph neural networks" 10), 2⟩ :=
  (C3_retry_unbounded_with_backoff 2 "graph neural networks" 10 0 [paperA]
    (by decide)).1

/-- C4: an empty query makes every search_for_papers variant return None
without performing any network request (and without any backoff). -/
theorem C4_empty_query_no_request (limit offset : Nat) (rsps : List SearchRsp) :
    search_for_papers_crp "" limit rsps = some ⟨.ok none, [], 0⟩ ∧
    search_for_papers_sample "" limit rsps = some ⟨.ok none, [], 0⟩ ∧
    search_for_papers_sample2 "" limit rsps = some ⟨.ok none, [], 0⟩ ∧
    search_for_papers_sample3 "" limit offset rsps = some ⟨.ok none, [], 0⟩ :=
  ⟨rfl, rfl, rfl, rfl⟩

/-- C1 (amended): for a non-empty query and a non-error response,
search_for_papers (create_review_paper.py and sample.py) performs exactly
one GET against the fixed search endpoint; it returns None whenever the
response's total field is 0 (or, in the create_review_paper.py variant,
absent), regardless of the contents of the data field; otherwise it
returns the response's raw data list unmodified: the limit only
parameterises the request, no local truncation is applied. -/
theorem C1_search_result_contract (q : String) (limit : Nat) (rsp : SearchRsp)
    (hq : q ≠ "") (hs : rsp.status < 400) :
    search_for_papers_crp q limit [rsp] =
      some ⟨search_attempt_crp rsp, [search_request_crp q limit], 0⟩ ∧
    search_for_papers_sample q limit [rsp] =
      some ⟨search_attempt_sample rsp, [search_request_sample q limit], 0⟩ ∧
    (search_request_crp q limit).url = searchEndpoint ∧
    (search_request_crp q limit).limit = limit ∧
    (rsp.total.getD 0 = 0 → search_attempt_crp rsp = .ok none) ∧
    (rsp.total = some 0 → search_attempt_sample rsp = .ok none) ∧
    (∀ t papers, rsp.total = some t → t ≠ 0 → rsp.data = some papers →
      search_attempt_crp rsp = .ok (some papers) ∧
      search_attempt_sample rsp = .ok (some papers)) := by
  refine ⟨?_, ?_, rfl, rfl, ?_, ?_, ?_⟩
  · rw [search_for_papers_crp, if_neg hq,
      runBackoffSearch_single _ _ _ (search_attempt_crp_not_http rsp hs)]
    rfl
  · rw [search_for_papers_sample, if_neg hq,
      runBackoffSearch_single _ _ _ (search_attempt_sample_not_http rsp hs)]
    rfl
  · intro h0
    rw [search_attempt_crp, if_neg (by omega), if_pos h0]
  · intro h0
    rw [search_attempt_sample, if_neg (by omega), h0]
    simp
  · intro t papers ht hne hd
    constructor
    · rw [search_attempt_crp, if_neg (by omega), ht, hd]
      simp [hne]
    · rw [search_attempt_sample, if_neg (by omega), ht, hd]
      simp [hne]

/-- Witness for C1 at a concrete non-empty query and 200 response. -/
theorem C1_search_result_contract_witness :
    search_for_papers_crp "q" 1 [⟨200, some 2, some [paperA, paperB]⟩] =
      some ⟨search_attempt_crp ⟨200, some 2, some [paperA, paperB]⟩,
            [search_request_crp "q" 1], 0⟩ :=
  (C1_search_result_contract "q" 1 ⟨200, some 2, some [paperA, paperB]⟩
    (by decide) (by decide)).1

/-- Counterexample to C1 as stated: with limit 1 and a response whose data
list has two entries, search_for_papers returns both entries; the result
is not capped at limit. -/
theorem C1_counterexample :
    search_for_papers_crp "q" 1 [⟨200, some 2, some [paperA, paperB]⟩] =
      some ⟨.ok (some [paperA, paperB]), [search_request_crp "q" 1], 0⟩ ∧
    1 < [paperA, paperB].length := by
  constructor
  · rfl
  · decide

/-- On any response whose JSON carries the total field, the sample.py and
create_review_paper.py attempts compute the same outcome. -/
theorem search_attempt_total_present (r : SearchRsp) (h : r.total.isSome = true) :
    search_attempt_sample r = search_attempt_crp r := by
  rcases hh : r.total with _ | t
  · rw [hh] at h; simp at h
  · rw [search_attempt_sample, search_attempt_crp, hh]
    by_cases hst : 400 ≤ r.status
    · rw [if_pos hst, if_pos hst]
    · rw [if_neg hst, if_neg hst]
      simp only [Option.getD_some]

/-- Two retried runs coincide when the attempt functions agree on every
listed response. -/
theorem runBackoffSearch_congr (a1 a2 : SearchRsp → Except PyErr (Option (List Paper)))
    (req : SearchRequest) :
    ∀ (rsps : List SearchRsp) (k : Nat), (∀ r ∈ rsps, a1 r = a2 r) →
      runBackoffSearch a1 req rsps k = runBackoffSearch a2 req rsps k := by
  intro rsps
  induction rsps with
  | nil => intro k h; rfl
  | cons r rest ih =>
    intro k h
    have hr : a1 r = a2 r := h r (by simp)
    rw [runBackoffSearch, runBackoffSearch, hr]
    rcases hA : a2 r with e | v
    · cases e with
      | httpError => exact ih (k + 1) (fun x hx => h x (by simp [hx]))
      | keyError => rfl
      | attributeError => rfl
    · rfl

/-- C7 (amended): the four search_for_papers variants compute the same
result on any response whose JSON contains the total field, and the
sample.py, sample2.py and sample3.py variants are identical functions;
given responses that all carry a total field, whole retried runs of
sample.py and create_review_paper.py coincide (their requests are also
identical). -/
theorem C7_search_variants_agree (rsp : SearchRsp) :
    (rsp.total.isSome = true → search_attempt_sample rsp = search_attempt_crp rsp) ∧
    search_attempt_sample2 rsp = search_attempt_sample rsp ∧
    search_attempt_sample3 rsp = search_attempt_sample rsp ∧
    (∀ q limit rsps, (∀ r ∈ rsps, r.total.isSome = true) →
      search_for_papers_sample q limit rsps = search_for_papers_crp q limit rsps) := by
  refine ⟨search_attempt_total_present rsp, rfl, rfl, ?_⟩
  intro q limit rsps hall
  rw [search_for_papers_sample, search_for_papers_crp]
  by_cases hq : q = ""
  · rw [if_pos hq, if_pos hq]
  · rw [if_neg hq, if_neg hq]
    have hreq : search_request_sample q limit = search_request_crp q limit := rfl
    rw [hreq]
    exact runBackoffSearch_congr _ _ _ rsps 0
      (fun r hr => search_attempt_total_present r (hall r hr))

/-- Witness for C7 at a concrete response carrying a total field. -/
theorem C7_search_variants_agree_witness :
    search_attempt_sample ⟨200, some 3, some [paperA]⟩ =
      search_attempt_crp ⟨200, some 3, some [paperA]⟩ :=
  (C7_search_variants_agree ⟨200, some 3, some [paperA]⟩).1 rfl

/-- Counterexample to C7 as stated: on a 200 response whose JSON has no
total field, sample.py's search_for_papers raises KeyError while
create_review_paper.py's returns None, so the variants do not compute the
same result in all cases. -/
theorem C7_counterexample :
    search_attempt_sample ⟨200, none, some [paperA]⟩ = .error .keyError ∧
    search_attempt_crp ⟨200, none, some [paperA]⟩ = .ok none ∧
    search_attempt_sample ⟨200, none, some [paperA]⟩ ≠
      search_attempt_crp ⟨200, none, some [paperA]⟩ := by
  refine ⟨rfl, rfl, ?_⟩
  intro h
  simp [search_attempt_sample, search_attempt_crp] at h

/-- C8: get_bibtex_entry returns None and performs no request when the
paper id is None or empty; otherwise it performs exactly one GET against
the per-paper URL with no retry, propagates HTTPError on a 4xx/5xx
status, and returns the whitespace-stripped response text on success. -/
theorem C8_bibtex_fetcher (pid : Option String) (rsp : BibRsp) :
    ((pid = none ∨ pid = some "") → get_bibtex_entry pid rsp = (.ok none, [])) ∧
    ((get_bibtex_entry pid rsp).2.length ≤ 1) ∧
    (∀ p, pid = some p → p ≠ "" →
      (get_bibtex_entry pid rsp).2 = [bibtex_request_url p] ∧
      (400 ≤ rsp.status → (get_bibtex_entry pid rsp).1 = .error .httpError) ∧
      (rsp.status < 400 →
        (get_bibtex_entry pid rsp).1 = .ok (some (pyStrip rsp.text)))) := by
  refine ⟨?_, ?_, ?_⟩
  · rintro (h | h)
    · rw [h]; rfl
    · rw [h, get_bibtex_entry]
      simp
  · rcases pid with _ | p
    · simp [get_bibtex_entry]
    · rw [get_bibtex_entry]
      by_cases hp : p = ""
      · rw [if_pos hp]; simp
      · rw [if_neg hp]
        by_cases hst : 400 ≤ rsp.status
        · rw [if_pos hst]; simp
        · rw [if_neg hst]; simp
  · intro p hp hne
    subst hp
    rw [get_bibtex_entry]
    refine ⟨?_, ?_, ?_⟩
    · rw [if_neg hne]
      by_cases hst : 400 ≤ rsp.status
      · rw [if_pos hst]
      · rw [if_neg hst]
    · intro hst
      rw [if_neg hne, if_pos hst]
    · intro hst
      rw [if_neg hne, if_neg (by omega)]

/-- Witness for C8: a successful fetch of a non-empty id strips the text,
and a missing id makes no request. -/
theorem C8_bibtex_fetcher_witness :
    (get_bibtex_entry (some "abc") ⟨200, " x\n"⟩).1 = .ok (some (pyStrip " x\n")) ∧
    get_bibtex_entry none ⟨500, "y"⟩ = (.ok none, []) :=
  ⟨((C8_bibtex_fetcher (some "abc") ⟨200, " x\n"⟩).2.2 "abc" rfl
      (by decide)).2.2 (by decide),
   (C8_bibtex_fetcher none ⟨500, "y"⟩).1 (Or.inl rfl)⟩

/-- C5: when the LLM response for document assembly contains no LaTeX
marker pair, both assemblers (create_review_paper.py's
generate_latex_review_paper and sample3.py's
generate_review_paper_from_papers) return the failure-signal and write
nothing: the filesystem is returned unchanged.  By contrast, the Chapter
Planner substitutes an empty chapter list when its own markers are absent
and continues, so assembly is the stage where a missing marker block halts
progress instead of degrading to an empty value. -/
theorem C5_assembler_aborts_without_markers (response planner_response output_file : String)
    (fs : List (String × String))
    (h : extract_text_between_markers response "<BEGIN LATEX>" "<END LATEX>" = none)
    (hp : extract_text_between_markers planner_response "<BEGIN OUTPUT>" "<END OUTPUT>" = none) :
    generate_latex_review_paper response output_file fs = (fs, none) ∧
    generate_review_paper_from_papers response output_file fs = (fs, none) ∧
    generate_chapter_structure planner_response = .ok (.arr []) := by
  refine ⟨?_, ?_, ?_⟩
  · rw [generate_latex_review_paper, h]
  · rw [generate_review_paper_from_papers, h]
  · rw [generate_chapter_structure, hp]

/-- Witness for C5 at a concrete marker-free response: nothing is written
to an empty filesystem and the planner substitutes an empty list. -/
theorem C5_assembler_aborts_without_markers_witness :
    generate_latex_review_paper "no markers here" "generated_review_paper.tex" [] =
      ([], none) ∧
    generate_review_paper_from_papers "no markers here" "generated_paper.tex" [] =
      ([], none) ∧
    generate_chapter_structure "no markers here" = .ok (.arr []) :=
  C5_assembler_aborts_without_markers "no markers here" "no markers here"
    "generated_review_paper.tex" [] rfl rfl |>.imp_right
    (fun h => ⟨C5_assembler_aborts_without_markers "no markers here" "no markers here"
      "generated_paper.tex" [] rfl rfl |>.2.1, h.2⟩)

/-- C6: on a paper record with no abstract key (or no authors key), the
chapter summarizer digest of create_review_paper.py renders the
placeholder 要旨なし (respectively an empty author list) and succeeds,
while the digest of sample2.py raises KeyError and aborts the
summarization, contradicting the spec's requirement that a missing field
must render a placeholder instead of raising. -/
theorem C6_missing_field_digest :
    papers_text_crp [paper_no_abstract] =
      .ok "1. T（2020）\n著者: A\n要旨: 要旨なし\n\n" ∧
    papers_text_crp [paper_no_authors] =
      .ok "1. T（2020）\n著者: \n要旨: abs\n\n" ∧
    papers_text_sample2 [paper_no_abstract] = .error .keyError ∧
    papers_text_sample2 [paper_no_authors] = .error .keyError :=
  ⟨rfl, rfl, rfl, rfl⟩

/-- dedupById only inspects the seen set through membership. -/
theorem dedupById_congr :
    ∀ (l : List Paper) (s1 s2 : List (Option String)), (∀ x, x ∈ s1 ↔ x ∈ s2) →
      dedupById l s1 = dedupById l s2 := by
  intro l
  induction l with
  | nil => intro s1 s2 h; rfl
  | cons p ps ih =>
    intro s1 s2 h
    rw [dedupById, dedupById]
    by_cases hm : p.paperId ∈ s1
    · rw [if_pos hm, if_pos ((h _).mp hm)]
      exact ih s1 s2 h
    · rw [if_neg hm, if_neg (fun hc => hm ((h _).mpr hc))]
      rw [ih (p.paperId :: s1) (p.paperId :: s2) (by intro x; simp [h x])]

/-- The inner fold of collect_papers_on_theme appends exactly the
first-seen-deduplicated batch to the collected papers and its ids to the
seen set. -/
theorem collectStep_foldl :
    ∀ (batch : List Paper) (acc : List Paper) (seen : List (Option String)),
      batch.foldl collectStep (acc, seen) =
        (acc ++ dedupById batch seen,
         seen ++ (dedupById batch seen).map (fun p => p.paperId)) := by
  intro batch
  induction batch with
  | nil => intro acc seen; simp [dedupById]
  | cons p ps ih =>
    intro acc seen
    rw [List.foldl_cons]
    by_cases hm : p.paperId ∈ seen
    · have hstep : collectStep (acc, seen) p = (acc, seen) := by
        simp [collectStep, hm]
      rw [hstep, ih acc seen, dedupById, if_pos hm]
    · have hstep : collectStep (acc, seen) p = (acc ++ [p], seen ++ [p.paperId]) := by
        simp [collectStep, hm]
      rw [hstep, ih (acc ++ [p]) (seen ++ [p.paperId]), dedupById, if_neg hm]
      have hcongr : dedupById ps (seen ++ [p.paperId]) = dedupById ps (p.paperId :: seen) :=
        dedupById_congr ps _ _ (by intro x; simp [or_comm])
      rw [hcongr]
      simp [List.append_assoc]

/-- First-seen deduplication distributes over list append, threading the
collected ids into the seen set of the second part. -/
theorem dedupById_append :
    ∀ (xs ys : List Paper) (seen : List (Option String)),
      dedupById (xs ++ ys) seen =
        dedupById xs seen ++
          dedupById ys (seen ++ (dedupById xs seen).map (fun p => p.paperId)) := by
  intro xs
  induction xs with
  | nil => intro ys seen; simp [dedupById]
  | cons p xs ih =>
    intro ys seen
    rw [List.cons_append]
    by_cases hm : p.paperId ∈ seen
    · have h1 : dedupById (p :: (xs ++ ys)) seen = dedupById (xs ++ ys) seen := by
        rw [dedupById, if_pos hm]
      have h2 : dedupById (p :: xs) seen = dedupById xs seen := by
        rw [dedupById, if_pos hm]
      rw [h1, h2, ih ys seen]
    · have h1 : dedupById (p :: (xs ++ ys)) seen =
          p :: dedupById (xs ++ ys) (p.paperId :: seen) := by
        rw [dedupById, if_neg hm]
      have h2 : dedupById (p :: xs) seen = p :: dedupById xs (p.paperId :: seen) := by
        rw [dedupById, if_neg hm]
      rw [h1, h2, ih ys (p.paperId :: seen)]
      simp only [List.cons_append, List.map_cons]
      congr 2
      exact dedupById_congr ys _ _ (by intro x; simp; tauto)

/-- The offset loop of collect_papers_on_theme computes the first-seen
deduplication of the traversed batches, relative to any starting
accumulator and seen set. -/
theorem collectGo_eq (search : Nat → Option (List Paper)) :
    ∀ (offs : List Nat) (acc : List Paper) (seen : List (Option String)),
      collectGo search offs acc seen =
        acc ++ dedupById (traversedBatches search offs) seen := by
  intro offs
  induction offs with
  | nil => intro acc seen; simp [collectGo, traversedBatches, dedupById]
  | cons off rest ih =>
    intro acc seen
    rcases h : search off with _ | batch
    · simp [collectGo, traversedBatches, h, dedupById]
    · rcases batch with _ | ⟨p, ps⟩
      · simp [collectGo, traversedBatches, h, dedupById]
      · have hgo : collectGo search (off :: rest) acc seen =
            collectGo search rest ((p :: ps).foldl collectStep (acc, seen)).1
              ((p :: ps).foldl collectStep (acc, seen)).2 := by
          rw [collectGo, h]
        have htrav : traversedBatches search (off :: rest) =
            (p :: ps) ++ traversedBatches search rest := by
          rw [traversedBatches, h]
        rw [hgo, collectStep_foldl (p :: ps) acc seen, htrav, dedupById_append,
          ← List.append_assoc]
        exact ih _ _

/-- The ids of the first-seen deduplication are pairwise distinct and
disjoint from the initial seen set. -/
theorem dedupById_nodup :
    ∀ (l : List Paper) (seen : List (Option String)),
      ((dedupById l seen).map (fun p => p.paperId)).Nodup ∧
      ∀ x ∈ (dedupById l seen).map (fun p => p.paperId), x ∉ seen := by
  intro l
  induction l with
  | nil =>
    intro seen
    constructor
    · simp [dedupById]
    · intro x hx; simp [dedupById] at hx
  | cons p ps ih =>
    intro seen
    rw [dedupById]
    by_cases hm : p.paperId ∈ seen
    · rw [if_pos hm]; exact ih seen
    · rw [if_neg hm]
      obtain ⟨hnd, hnotin⟩ := ih (p.paperId :: seen)
      constructor
      · rw [List.map_cons, List.nodup_cons]
        exact ⟨fun hmem => (hnotin _ hmem) (by simp), hnd⟩
      · intro x hx
        rw [List.map_cons] at hx
        rcases List.mem_cons.mp hx with hx1 | hx2
        · rw [hx1]; exact hm
        · intro hxs
          exact (hnotin _ hx2) (by simp [hxs])

/-- C9: for every sequence of search outcomes, collect_papers_on_theme of
sample3.py returns exactly the first-seen-by-paperId deduplication of the
papers it traverses, so the paperId values of the collected papers are
pairwise distinct; hence the main-program loop, which fetches one BibTeX
entry per collected paper, fetches at most one entry per distinct id. -/
theorem C9_collect_distinct_ids (search : Nat → Option (List Paper)) :
    collect_papers_on_theme search =
      dedupById (traversedBatches search collect_offsets) [] ∧
    ((collect_papers_on_theme search).map (fun p => p.paperId)).Nodup := by
  have h1 : collect_papers_on_theme search =
      dedupById (traversedBatches search collect_offsets) [] := by
    rw [collect_papers_on_theme, collectGo_eq]
    simp
  refine ⟨h1, ?_⟩
  rw [h1]
  exact (dedupById_nodup _ []).1

/-- A successful scan returns the first position at or after the start of
the scan where the pattern occurs. -/
theorem findSubFrom_some (pat t : List Char) :
    ∀ (fuel i j : Nat), findSubFrom pat t i fuel = some j →
      listStartsWith pat (t.drop j) = true ∧ i ≤ j ∧
      ∀ m, i ≤ m → m < j → listStartsWith pat (t.drop m) = false := by
  intro fuel
  induction fuel with
  | zero => intro i j h; simp [findSubFrom] at h
  | succ fuel ih =>
    intro i j h
    rw [findSubFrom] at h
    by_cases hc : listStartsWith pat (t.drop i) = true
    · rw [if_pos hc] at h
      injection h with h'
      subst h'
      exact ⟨hc, le_refl _, fun m h1 h2 => absurd h1 (by omega)⟩
    · rw [if_neg hc] at h
      obtain ⟨hj, hij, hmin⟩ := ih (i + 1) j h
      refine ⟨hj, by omega, ?_⟩
      intro m h1 h2
      rcases Nat.eq_or_lt_of_le h1 with heq | hlt
      · rw [← heq]
        exact Bool.eq_false_iff.mpr hc
      · exact hmin m hlt h2

/-- A failed scan means the pattern occurs at none of the scanned
positions. -/
theorem findSubFrom_none (pat t : List Char) :
    ∀ (fuel i : Nat), findSubFrom pat t i fuel = none →
      ∀ m, i ≤ m → m < i + fuel → listStartsWith pat (t.drop m) = false := by
  intro fuel
  induction fuel with
  | zero => intro i h m h1 h2; omega
  | succ fuel ih =>
    intro i h m h1 h2
    rw [findSubFrom] at h
    by_cases hc : listStartsWith pat (t.drop i) = true
    · rw [if_pos hc] at h; exact absurd h (by simp)
    · rw [if_neg hc] at h
      rcases Nat.eq_or_lt_of_le h1 with heq | hlt
      · rw [← heq]
        exact Bool.eq_false_iff.mpr hc
      · exact ih (i + 1) h m hlt (by omega)

/-- If the full search fails the pattern occurs nowhere: positions past
the end of the text behave like the position at its length. -/
theorem findSub_none (pat t : List Char) (h : findSub pat t = none) :
    ∀ m, listStartsWith pat (t.drop m) = false := by
  intro m
  by_cases hm : m ≤ t.length
  · exact findSubFrom_none pat t (t.length + 1) 0 h m (Nat.zero_le _) (by omega)
  · have h0 : listStartsWith pat (t.drop t.length) = false :=
      findSubFrom_none pat t (t.length + 1) 0 h t.length (Nat.zero_le _) (by omega)
    rw [List.drop_eq_nil_of_le (le_refl _)] at h0
    rw [List.drop_eq_nil_of_le (by omega : t.length ≤ m)]
    exact h0

/-- The full search succeeds exactly when the pattern occurs somewhere. -/
theorem findSub_isSome_iff (pat t : List Char) :
    (findSub pat t).isSome = true ↔ ∃ m, listStartsWith pat (t.drop m) = true := by
  constructor
  · intro h
    rcases ho : findSub pat t with _ | j
    · rw [ho] at h; simp at h
    · obtain ⟨hj, _, _⟩ := findSubFrom_some pat t (t.length + 1) 0 j ho
      exact ⟨j, hj⟩
  · rintro ⟨m, hm⟩
    rcases ho : findSub pat t with _ | j
    · rw [findSub_none pat t ho m] at hm
      cases hm
    · rfl

/-- A successful full search returns the first occurrence position. -/
theorem findSub_eq_some (pat t : List Char) (j : Nat) (h : findSub pat t = some j) :
    listStartsWith pat (t.drop j) = true ∧
      ∀ m, m < j → listStartsWith pat (t.drop m) = false := by
  obtain ⟨h1, _, h3⟩ := findSubFrom_some pat t (t.length + 1) 0 j h
  exact ⟨h1, fun m hm => h3 m (Nat.zero_le _) hm⟩

/-- The match-start predicate holds at i exactly when the start marker
occurs at i and the end marker occurs at some position at or after
i plus the start marker's length. -/
theorem startPred_iff (s e t : List Char) (i : Nat) :
    startPred s e t i = true ↔
      (listStartsWith s (t.drop i) = true ∧
        ∃ q, i + s.length ≤ q ∧ listStartsWith e (t.drop q) = true) := by
  rw [startPred, Bool.and_eq_true]
  constructor
  · rintro ⟨h1, h2⟩
    refine ⟨h1, ?_⟩
    obtain ⟨m, hm⟩ := (findSub_isSome_iff e _).mp h2
    rw [List.drop_drop] at hm
    exact ⟨i + s.length + m, by omega, hm⟩
  · rintro ⟨h1, q, hq1, hq2⟩
    refine ⟨h1, ?_⟩
    rw [findSub_isSome_iff]
    refine ⟨q - (i + s.length), ?_⟩
    rw [List.drop_drop]
    have hq : i + s.length + (q - (i + s.length)) = q := by omega
    rw [hq]
    exact hq2

/-- A successful start scan returns the first viable match position. -/
theorem findStartFrom_some (s e t : List Char) :
    ∀ (fuel i p : Nat), findStartFrom s e t i fuel = some p →
      startPred s e t p = true ∧ i ≤ p ∧
      ∀ m, i ≤ m → m < p → startPred s e t m = false := by
  intro fuel
  induction fuel with
  | zero => intro i p h; simp [findStartFrom] at h
  | succ fuel ih =>
    intro i p h
    rw [findStartFrom] at h
    by_cases hc : startPred s e t i = true
    · rw [if_pos hc] at h
      injection h with h'
      subst h'
      exact ⟨hc, le_refl _, fun m h1 h2 => absurd h1 (by omega)⟩
    · rw [if_neg hc] at h
      obtain ⟨hp, hip, hmin⟩ := ih (i + 1) p h
      refine ⟨hp, by omega, ?_⟩
      intro m h1 h2
      rcases Nat.eq_or_lt_of_le h1 with heq | hlt
      · rw [← heq]
        exact Bool.eq_false_iff.mpr hc
      · exact hmin m hlt h2

/-- A failed start scan means no scanned position is viable. -/
theorem findStartFrom_none (s e t : List Char) :
    ∀ (fuel i : Nat), findStartFrom s e t i fuel = none →
      ∀ m, i ≤ m → m < i + fuel → startPred s e t m = false := by
  intro fuel
  induction fuel with
  | zero => intro i h m h1 h2; omega
  | succ fuel ih =>
    intro i h m h1 h2
    rw [findStartFrom] at h
    by_cases hc : startPred s e t i = true
    · rw [if_pos hc] at h; exact absurd h (by simp)
    · rw [if_neg hc] at h
      rcases Nat.eq_or_lt_of_le h1 with heq | hlt
      · rw [← heq]
        exact Bool.eq_false_iff.mpr hc
      · exact ih (i + 1) h m hlt (by omega)

/-- If the full start scan fails no position at all is viable. -/
theorem findStart_none (s e t : List Char)
    (h : findStartFrom s e t 0 (t.length + 1) = none) :
    ∀ m, startPred s e t m = false := by
  intro m
  by_cases hm : m ≤ t.length
  · exact findStartFrom_none s e t (t.length + 1) 0 h m (Nat.zero_le _) (by omega)
  · have h0 : startPred s e t t.length = false :=
      findStartFrom_none s e t (t.length + 1) 0 h t.length (Nat.zero_le _) (by omega)
    have e1 : t.drop t.length = ([] : List Char) := List.drop_eq_nil_of_le (le_refl _)
    have e2 : t.drop (t.length + s.length) = ([] : List Char) :=
      List.drop_eq_nil_of_le (by omega)
    have e3 : t.drop m = ([] : List Char) := List.drop_eq_nil_of_le (by omega)
    have e4 : t.drop (m + s.length) = ([] : List Char) :=
      List.drop_eq_nil_of_le (by omega)
    rw [startPred, e1, e2] at h0
    rw [startPred, e3, e4]
    exact h0

/-- C10 (amended): extract_text_between_markers returns a non-None result
exactly when the text contains an occurrence of the start marker with an
occurrence of the end marker beginning at or after its end; the result is
obtained from the earliest such start-marker occurrence p and the first
end-marker occurrence after it (k characters on): the enclosed segment is
stripped of leading and trailing whitespace, no end-marker occurrence
begins inside the segment (by the minimality of k), the segment may
however contain further start-marker occurrences, and the function never
raises. -/
theorem C10_extract_between_markers (text s e : String) :
    ((extract_text_between_markers text s e).isSome = true ↔
      ∃ p q, p + s.data.length ≤ q ∧ matchesAt s text p ∧ matchesAt e text q) ∧
    (∀ r, extract_text_between_markers text s e = some r →
      ∃ p k,
        matchesAt s text p ∧
        (∀ p', p' < p →
          ¬(matchesAt s text p' ∧ ∃ q, p' + s.data.length ≤ q ∧ matchesAt e text q)) ∧
        matchesAt e text (p + s.data.length + k) ∧
        (∀ k', k' < k → ¬ matchesAt e text (p + s.data.length + k')) ∧
        r = pyStrip (String.mk ((text.data.drop (p + s.data.length)).take k))) := by
  have hext : extract_text_between_markers text s e =
      (match findStartFrom s.data e.data text.data 0 (text.data.length + 1) with
       | none => none
       | some p =>
         match findSub e.data (text.data.drop (p + s.data.length)) with
         | none => none
         | some k =>
           some (pyStrip (String.mk ((text.data.drop (p + s.data.length)).take k)))) := rfl
  constructor
  · constructor
    · intro h
      rcases hf : findStartFrom s.data e.data text.data 0 (text.data.length + 1) with _ | p
      · rw [hext, hf] at h; simp at h
      · obtain ⟨hpred, _, _⟩ :=
          findStartFrom_some s.data e.data text.data (text.data.length + 1) 0 p hf
        obtain ⟨h1, q, hq1, hq2⟩ := (startPred_iff _ _ _ _).mp hpred
        exact ⟨p, q, hq1, h1, hq2⟩
    · rintro ⟨p, q, hq1, hp, hq⟩
      have hpred : startPred s.data e.data text.data p = true :=
        (startPred_iff _ _ _ _).mpr ⟨hp, q, hq1, hq⟩
      rcases hf : findStartFrom s.data e.data text.data 0 (text.data.length + 1) with _ | p0
      · rw [findStart_none s.data e.data text.data hf p] at hpred
        cases hpred
      · obtain ⟨hpred0, _, _⟩ :=
          findStartFrom_some s.data e.data text.data (text.data.length + 1) 0 p0 hf
        rw [startPred, Bool.and_eq_true] at hpred0
        obtain ⟨_, hsome⟩ := hpred0
        have hext2 : extract_text_between_markers text s e =
            (match findSub e.data (text.data.drop (p0 + s.data.length)) with
             | none => none
             | some k =>
               some (pyStrip (String.mk ((text.data.drop (p0 + s.data.length)).take k)))) := by
          rw [hext, hf]
        rcases hfs : findSub e.data (text.data.drop (p0 + s.data.length)) with _ | k
        · rw [hfs] at hsome; simp at hsome
        · rw [hext2, hfs]; rfl
  · intro r hr
    rcases hf : findStartFrom s.data e.data text.data 0 (text.data.length + 1) with _ | p
    · rw [hext, hf] at hr; cases hr
    · have hext2 : extract_text_between_markers text s e =
          (match findSub e.data (text.data.drop (p + s.data.length)) with
           | none => none
           | some k =>
             some (pyStrip (String.mk ((text.data.drop (p + s.data.length)).take k)))) := by
        rw [hext, hf]
      rcases hfs : findSub e.data (text.data.drop (p + s.data.length)) with _ | k
      · rw [hext2, hfs] at hr; cases hr
      · rw [hext2, hfs] at hr
        injection hr with hr'
        obtain ⟨hpred, _, hminp⟩ :=
          findStartFrom_some s.data e.data text.data (text.data.length + 1) 0 p hf
        have hpred2 := hpred
        rw [startPred, Bool.and_eq_true] at hpred2
        obtain ⟨hsw, _⟩ := hpred2
        obtain ⟨hk, hkmin⟩ := findSub_eq_some e.data _ k hfs
        rw [List.drop_drop] at hk
        refine ⟨p, k, hsw, ?_, hk, ?_, hr'.symm⟩
        · rintro p' hp' ⟨hm1, q, hq1, hq2⟩
          have hv : startPred s.data e.data text.data p' = true :=
            (startPred_iff _ _ _ _).mpr ⟨hm1, q, hq1, hq2⟩
          rw [hminp p' (Nat.zero_le _) hp'] at hv
          cases hv
        · intro k' hk' hmat
          have hfalse := hkmin k' hk'
          rw [List.drop_drop] at hfalse
          rw [matchesAt] at hmat
          rw [hfalse] at hmat
          cases hmat

/-- Witness for C10 at a concrete text containing one marker pair. -/
theorem C10_extract_between_markers_witness :
    (extract_text_between_markers "a<B> hi <E>b" "<B>" "<E>").isSome = true :=
  ((C10_extract_between_markers "a<B> hi <E>b" "<B>" "<E>").1).mpr
    ⟨1, 8, by decide, rfl, rfl⟩

/-- Counterexample to C10 as stated: when the enclosed segment contains a
further start marker the extracted result contains that marker, so the
result is not always free of both markers. -/
theorem C10_counterexample :
    extract_text_between_markers "<B>x<B>y<E>" "<B>" "<E>" = some "x<B>y" ∧
    (findSub "<B>".data "x<B>y".data).isSome = true :=
  ⟨rfl, rfl⟩

/-- C2 (amended): for every LLM response, the Chapter Planner returns the
empty chapter sequence when the OUTPUT marker block is absent or the
enclosed text is invalid JSON; when the enclosed text parses to a JSON
object, it returns that object's chapters value (empty when the key is
absent), so when chapters is an array the result has exactly its length;
but when the enclosed text is valid JSON that is not an object, the
.get call raises AttributeError instead of returning - the function is
not exception-free on every response. -/
theorem C2_planner_contract (response : String) :
    (extract_text_between_markers response "<BEGIN OUTPUT>" "<END OUTPUT>" = none →
      generate_chapter_structure response = .ok (.arr [])) ∧
    (∀ jt, extract_text_between_markers response "<BEGIN OUTPUT>" "<END OUTPUT>" = some jt →
      (∀ err, json_loads jt = .error err →
        generate_chapter_structure response = .ok (.arr [])) ∧
      (∀ fields l, json_loads jt = .ok (.obj fields) →
        dictGet fields "chapters" (.arr []) = .arr l →
        ∃ chapters, generate_chapter_structure response = .ok (.arr chapters) ∧
          chapters.length = l.length) ∧
      (∀ j, json_loads jt = .ok j → (∀ fields, j ≠ .obj fields) →
        generate_chapter_structure response = .error .attributeError)) := by
  constructor
  · intro h
    rw [generate_chapter_structure, h]
  · intro jt hjt
    have hstep : generate_chapter_structure response =
        (match json_loads jt with
         | .error _ => .ok (.arr [])
         | .ok (.obj fields) => .ok (dictGet fields "chapters" (.arr []))
         | .ok _ => .error .attributeError) := by
      rw [generate_chapter_structure, hjt]
    refine ⟨?_, ?_, ?_⟩
    · intro err herr
      rw [hstep, herr]
    · intro fields l hobj hget
      refine ⟨l, ?_, rfl⟩
      rw [hstep, hobj]
      show Except.ok (dictGet fields "chapters" (Json.arr [])) = Except.ok (Json.arr l)
      rw [hget]
    · intro j hj hnotobj
      rw [hstep, hj]
      cases j with
      | obj fields => exact absurd rfl (hnotobj fields)
      | null => rfl
      | bool b => rfl
      | num m x => rfl
      | str s2 => rfl
      | arr l2 => rfl

/-- Witness for C2 at a response whose marker block encloses a JSON object
with a two-element chapters array. -/
theorem C2_planner_contract_witness :
    ∃ chapters,
      generate_chapter_structure
          "<BEGIN OUTPUT>\x7b\"chapters\": [\"Intro\", \"Methods\"]\x7d<END OUTPUT>" =
        .ok (.arr chapters) ∧
      chapters.length = [Json.str "Intro", Json.str "Methods"].length :=
  ((C2_planner_contract
      "<BEGIN OUTPUT>\x7b\"chapters\": [\"Intro\", \"Methods\"]\x7d<END OUTPUT>").2
    "\x7b\"chapters\": [\"Intro\", \"Methods\"]\x7d" rfl).2.1
    [("chapters", Json.arr [Json.str "Intro", Json.str "Methods"])]
    [Json.str "Intro", Json.str "Methods"] rfl rfl

/-- Counterexample to C2 as stated: a response whose marker block encloses
the valid JSON text [1] makes generate_chapter_structure raise
AttributeError (a list has no .get), so the function does raise on some
responses with a valid marker block and valid JSON. -/
theorem C2_counterexample :
    generate_chapter_structure "<BEGIN OUTPUT>[1]<END OUTPUT>" =
      .error .attributeError ∧
    json_loads "[1]" = .ok (.arr [.num 1 0]) :=
  ⟨rfl, rfl⟩
